import Mathlib

/-
Shallow embedding of the authored logic of the `open-data-education`
repository (notebook `03_multidim_analysis.ipynb`): the JSON metadata
loader `load_scale_factors`, the linear reflectance transform
`calculate_reflectance`, the derived-index computation `ndvi`, and the
download helper `download_file`.

Numeric values carried by arrays are modelled by `FVal`: exact rationals
together with the IEEE-754 special values (infinities and the
not-a-number sentinel), with arithmetic matching the floating-point
special-value rules. JSON documents are modelled by the inductive `Json`;
Python subscripting (`d[k]`) is modelled by `Json.subscript`, which
raises a `KeyError` on an object missing the key and a `TypeError` on a
non-object, as CPython does.
-/

namespace Landsat

/-- A Python exception relevant to this code: `KeyError` (a lookup
error) raised by a dict subscript on a missing key, and `TypeError`
raised when subscripting a non-dict or multiplying a non-number. -/
inductive PyError where
  | keyError (k : String)
  | typeError
deriving DecidableEq, Repr

/-- In Python, `KeyError` is a `LookupError`; `TypeError` is not. -/
def PyError.isLookupError : PyError → Bool
  | PyError.keyError _ => true
  | PyError.typeError => false

/-- A parsed JSON document, as returned by `json.load`. -/
inductive Json where
  | null
  | bool (b : Bool)
  | num (q : ℚ)
  | str (s : String)
  | arr (xs : List Json)
  | obj (kvs : List (String × Json))

/-- Key lookup in the association list of a JSON object (a parsed
Python dict, keys unique). -/
def findJson : List (String × Json) → String → Option Json
  | [], _ => none
  | (k, v) :: rest, key => if k = key then some v else findJson rest key

/-- Python subscripting `value[key]` with a string key: on a dict it
returns the value or raises `KeyError`; on anything else it raises
`TypeError`. -/
def Json.subscript : Json → String → Except PyError Json
  | Json.obj kvs, key =>
    match findJson kvs key with
    | some v => Except.ok v
    | none => Except.error (PyError.keyError key)
  | _, _ => Except.error PyError.typeError

/-- Whether a JSON value is an object (a dict after parsing). -/
def Json.isObj : Json → Bool
  | Json.obj _ => true
  | _ => false

/-- Python numeric coercion used by `float * array`: JSON numbers are
numeric, and Python booleans are numeric (`bool` subclasses `int`);
everything else raises `TypeError` when multiplied with an array. -/
def Json.toNum : Json → Option ℚ
  | Json.num q => some q
  | Json.bool b => some (if b then 1 else 0)
  | _ => none

/-- Embedding of `load_scale_factors(filename, band_number)` applied to
the already-parsed document: two subscript chains
`metadata['L1_METADATA_FILE']['RADIOMETRIC_RESCALING']['REFLECTANCE_MULT_BAND_{n}']`
and the same with `ADD`, returning the pair `(M_p, A_p)`; any exception
propagates. -/
def load_scale_factors (metadata : Json) (band_number : Nat) :
    Except PyError (Json × Json) :=
  match metadata.subscript "L1_METADATA_FILE" with
  | Except.error e => Except.error e
  | Except.ok l1 =>
    match l1.subscript "RADIOMETRIC_RESCALING" with
    | Except.error e => Except.error e
    | Except.ok rr =>
      match rr.subscript ("REFLECTANCE_MULT_BAND_" ++ toString band_number) with
      | Except.error e => Except.error e
      | Except.ok mp =>
        match metadata.subscript "L1_METADATA_FILE" with
        | Except.error e => Except.error e
        | Except.ok l1b =>
          match l1b.subscript "RADIOMETRIC_RESCALING" with
          | Except.error e => Except.error e
          | Except.ok rrb =>
            match rrb.subscript ("REFLECTANCE_ADD_BAND_" ++ toString band_number) with
            | Except.error e => Except.error e
            | Except.ok ap => Except.ok (mp, ap)

/-- The values met along the subscript chain are objects wherever they
are present: the document itself, the value at `L1_METADATA_FILE` if
any, and the value at `RADIOMETRIC_RESCALING` if any. -/
def objChain (md : Json) : Bool :=
  md.isObj &&
    (match md.subscript "L1_METADATA_FILE" with
     | Except.ok l1 =>
       l1.isObj &&
         (match l1.subscript "RADIOMETRIC_RESCALING" with
          | Except.ok rr => rr.isObj
          | Except.error _ => true)
     | Except.error _ => true)

/-- All four rescaling-coefficient lookups of `load_scale_factors`
succeed on the document. -/
def scale_keys_present (md : Json) (bn : Nat) : Bool :=
  match md.subscript "L1_METADATA_FILE" with
  | Except.error _ => false
  | Except.ok l1 =>
    match l1.subscript "RADIOMETRIC_RESCALING" with
    | Except.error _ => false
    | Except.ok rr =>
      (match rr.subscript ("REFLECTANCE_MULT_BAND_" ++ toString bn) with
       | Except.ok _ => true
       | Except.error _ => false) &&
      (match rr.subscript ("REFLECTANCE_ADD_BAND_" ++ toString bn) with
       | Except.ok _ => true
       | Except.error _ => false)

/-- A floating-point value as manipulated by the array library: an
exact rational (ignoring rounding), positive or negative infinity, or
the not-a-number sentinel. -/
inductive FVal where
  | num (q : ℚ)
  | inf
  | ninf
  | nan
deriving DecidableEq, Repr

/-- IEEE-754 addition on `FVal`: `nan` propagates, opposite infinities
give `nan`. -/
def FVal.add : FVal → FVal → FVal
  | FVal.nan, _ => FVal.nan
  | _, FVal.nan => FVal.nan
  | FVal.inf, FVal.ninf => FVal.nan
  | FVal.ninf, FVal.inf => FVal.nan
  | FVal.inf, _ => FVal.inf
  | _, FVal.inf => FVal.inf
  | FVal.ninf, _ => FVal.ninf
  | _, FVal.ninf => FVal.ninf
  | FVal.num a, FVal.num b => FVal.num (a + b)

/-- IEEE-754 subtraction on `FVal`. -/
def FVal.sub : FVal → FVal → FVal
  | FVal.nan, _ => FVal.nan
  | _, FVal.nan => FVal.nan
  | FVal.inf, FVal.inf => FVal.nan
  | FVal.ninf, FVal.ninf => FVal.nan
  | FVal.inf, _ => FVal.inf
  | FVal.ninf, _ => FVal.ninf
  | _, FVal.inf => FVal.ninf
  | _, FVal.ninf => FVal.inf
  | FVal.num a, FVal.num b => FVal.num (a - b)

/-- IEEE-754 multiplication on `FVal`: `0 * inf = nan`, signs as usual. -/
def FVal.mul : FVal → FVal → FVal
  | FVal.nan, _ => FVal.nan
  | _, FVal.nan => FVal.nan
  | FVal.num a, FVal.inf =>
    if a = 0 then FVal.nan else if 0 < a then FVal.inf else FVal.ninf
  | FVal.num a, FVal.ninf =>
    if a = 0 then FVal.nan else if 0 < a then FVal.ninf else FVal.inf
  | FVal.inf, FVal.num b =>
    if b = 0 then FVal.nan else if 0 < b then FVal.inf else FVal.ninf
  | FVal.ninf, FVal.num b =>
    if b = 0 then FVal.nan else if 0 < b then FVal.ninf else FVal.inf
  | FVal.inf, FVal.inf => FVal.inf
  | FVal.inf, FVal.ninf => FVal.ninf
  | FVal.ninf, FVal.inf => FVal.ninf
  | FVal.ninf, FVal.ninf => FVal.inf
  | FVal.num a, FVal.num b => FVal.num (a * b)

/-- IEEE-754 division on `FVal`: `0 / 0 = nan`, `x / 0 = ±inf` for
nonzero `x`, finite over infinite is `0`, `inf / inf = nan`. -/
def FVal.div : FVal → FVal → FVal
  | FVal.nan, _ => FVal.nan
  | _, FVal.nan => FVal.nan
  | FVal.inf, FVal.inf => FVal.nan
  | FVal.inf, FVal.ninf => FVal.nan
  | FVal.ninf, FVal.inf => FVal.nan
  | FVal.ninf, FVal.ninf => FVal.nan
  | FVal.inf, FVal.num b => if 0 ≤ b then FVal.inf else FVal.ninf
  | FVal.ninf, FVal.num b => if 0 ≤ b then FVal.ninf else FVal.inf
  | FVal.num _, FVal.inf => FVal.num 0
  | FVal.num _, FVal.ninf => FVal.num 0
  | FVal.num a, FVal.num b =>
    if b = 0 then
      if a = 0 then FVal.nan else if 0 < a then FVal.inf else FVal.ninf
    else FVal.num (a / b)

/-- An `xarray.DataArray` as used by the notebook: dimension names,
coordinate labels keyed by dimension, the shape, and the flattened
element data. -/
structure DataArray where
  dims : List String
  coords : List (String × List ℚ)
  shape : List Nat
  data : List FVal
deriving DecidableEq, Repr

/-- Scalar times array (`M_p * ds`): elementwise multiplication, shape
and labels untouched. -/
def scalar_mul (c : ℚ) (ds : DataArray) : DataArray :=
  { ds with data := ds.data.map (fun v => FVal.mul (FVal.num c) v) }

/-- Array plus scalar (`ds + A_p`): elementwise addition, shape and
labels untouched. -/
def scalar_add (c : ℚ) (ds : DataArray) : DataArray :=
  { ds with data := ds.data.map (fun v => FVal.add v (FVal.num c)) }

/-- Elementwise binary operation on two aligned arrays. -/
def DataArray.map2 (f : FVal → FVal → FVal) (a b : DataArray) : DataArray :=
  { a with data := List.zipWith f a.data b.data }

/-- Embedding of `calculate_reflectance(ds, band_number, metafile)`
applied to the parsed metadata document: load `(M_p, A_p)` and return
`toa = M_p * ds + A_p`; a non-numeric coefficient would raise
`TypeError` at the multiplication. -/
def calculate_reflectance (ds : DataArray) (band_number : Nat)
    (metafile : Json) : Except PyError DataArray :=
  match load_scale_factors metafile band_number with
  | Except.error e => Except.error e
  | Except.ok (mp, ap) =>
    match mp.toNum, ap.toNum with
    | some m, some a => Except.ok (scalar_add a (scalar_mul m ds))
    | _, _ => Except.error PyError.typeError

/-- Embedding of `ndvi = (nir_toa - red_toa) / (nir_toa + red_toa)`. -/
def ndvi (nir_toa red_toa : DataArray) : DataArray :=
  DataArray.map2 FVal.div (DataArray.map2 FVal.sub nir_toa red_toa)
    (DataArray.map2 FVal.add nir_toa red_toa)

/-- An HTTP response as returned by `requests.get`: a status code and
the raw body bytes (`response.content`). The notebook never inspects
the status code. -/
structure Response where
  status_code : Nat
  content : List Nat

/-- The local filesystem as a list of (path, bytes) entries; the most
recent write for a path comes first. -/
structure FileSystem where
  files : List (String × List Nat)

/-- Content of the file at a path, if it exists. -/
def findFile : List (String × List Nat) → String → Option (List Nat)
  | [], _ => none
  | (q, c) :: rest, p => if q = p then some c else findFile rest p

/-- Embedding of `os.path.exists(p)`. -/
def os_path_exists (fs : FileSystem) (p : String) : Bool :=
  (findFile fs.files p).isSome

/-- Embedding of `open(p, 'wb')` followed by `f.write(c)`: the path now
holds exactly `c`. -/
def FileSystem.write (fs : FileSystem) (p : String) (c : List Nat) :
    FileSystem :=
  ⟨(p, c) :: fs.files⟩

/-- Embedding of `download_file(in_filename, out_filename)`. The
network is a function from URL to response (`requests.get`). Returns
the filesystem after the call together with the list of URLs actually
requested during the call: if the destination already exists nothing
happens, otherwise one GET is issued and the response body is written
to the destination with no status-code check. -/
def download_file (net : String → Response) (in_filename out_filename : String)
    (fs : FileSystem) : FileSystem × List String :=
  if os_path_exists fs out_filename then (fs, [])
  else (fs.write out_filename (net in_filename).content, [in_filename])

/-- Run a sequence of `download_file` calls (network, source URL,
destination path), threading the filesystem through. -/
def run_downloads (calls : List ((String → Response) × String × String))
    (fs : FileSystem) : FileSystem :=
  calls.foldl (fun s c => (download_file c.1 c.2.1 c.2.2 s).1) fs

/-- Sample rescaling block with multiplier 2 and offset -62 for band 4. -/
def sampleRR : Json :=
  Json.obj [("REFLECTANCE_MULT_BAND_4", Json.num 2),
            ("REFLECTANCE_ADD_BAND_4", Json.num (-62))]

/-- Sample `L1_METADATA_FILE` block. -/
def sampleL1 : Json := Json.obj [("RADIOMETRIC_RESCALING", sampleRR)]

/-- Sample metadata document holding multiplier 2 and offset -62. -/
def sampleMeta : Json := Json.obj [("L1_METADATA_FILE", sampleL1)]

/-- Sample metadata document whose rescaling block is missing the
band-4 keys. -/
def sampleMetaMissing : Json :=
  Json.obj [("L1_METADATA_FILE", Json.obj [("RADIOMETRIC_RESCALING", Json.obj [])])]

/-- Sample one-pixel data array holding raw value 218. -/
def samplePixel : DataArray :=
  ⟨["band", "y", "x"], [("x", [0]), ("y", [0])], [1, 1, 1], [FVal.num 218]⟩

theorem getElem_zipWith_some (f : FVal → FVal → FVal) :
    ∀ (xs ys : List FVal) (i : Nat) (x y : FVal),
      xs[i]? = some x → ys[i]? = some y →
      (List.zipWith f xs ys)[i]? = some (f x y) := by
  intro xs
  induction xs with
  | nil => intro ys i x y hx _; simp at hx
  | cons a as ih =>
    intro ys i x y hx hy
    cases ys with
    | nil => simp at hy
    | cons b bs =>
      cases i with
      | zero =>
        simp at hx hy
        simp [hx, hy]
      | succ n =>
        simp at hx hy ⊢
        exact ih bs n x y hx hy

theorem ndvi_at (A B : DataArray) (i : Nat) (a b : ℚ)
    (ha : A.data[i]? = some (FVal.num a))
    (hb : B.data[i]? = some (FVal.num b)) :
    (ndvi A B).data[i]? =
      some (FVal.div (FVal.num (a - b)) (FVal.num (a + b))) := by
  have hsub := getElem_zipWith_some FVal.sub A.data B.data i _ _ ha hb
  have hadd := getElem_zipWith_some FVal.add A.data B.data i _ _ ha hb
  have hdiv := getElem_zipWith_some FVal.div _ _ i _ _ hsub hadd
  simpa [ndvi, DataArray.map2, FVal.sub, FVal.add] using hdiv

/-- C2: for two aligned arrays, at every position where the
near-infrared value is `a`, the red value is `b`, and `a + b ≠ 0`, the
derived index `ndvi` holds exactly `(a - b) / (a + b)`. -/
theorem ndvi_elementwise (A B : DataArray) (i : Nat) (a b : ℚ)
    (ha : A.data[i]? = some (FVal.num a))
    (hb : B.data[i]? = some (FVal.num b))
    (hs : a + b ≠ 0) :
    (ndvi A B).data[i]? = some (FVal.num ((a - b) / (a + b))) := by
  rw [ndvi_at A B i a b ha hb]
  simp [FVal.div, hs]

/-- Witness for C2 at a concrete input: pixel values 6 and 2 give
index (6 - 2) / (6 + 2). -/
theorem ndvi_elementwise_witness :
    (⟨["y"], [("y", [0])], [1], [FVal.num 6]⟩ : DataArray).data[0]? =
      some (FVal.num 6) ∧
    (⟨["y"], [("y", [0])], [1], [FVal.num 2]⟩ : DataArray).data[0]? =
      some (FVal.num 2) ∧
    (6 : ℚ) + 2 ≠ 0 ∧
    (ndvi ⟨["y"], [("y", [0])], [1], [FVal.num 6]⟩
        ⟨["y"], [("y", [0])], [1], [FVal.num 2]⟩).data[0]? =
      some (FVal.num ((6 - 2) / (6 + 2))) :=
  ⟨rfl, rfl, by norm_num,
    ndvi_elementwise _ _ 0 6 2 rfl rfl (by norm_num)⟩

/-- C6: where both inputs are non-negative and their sum is nonzero,
the `ndvi` element is a finite value lying in the closed interval
[-1, 1]. -/
theorem ndvi_bounded (A B : DataArray) (i : Nat) (a b : ℚ)
    (ha : A.data[i]? = some (FVal.num a))
    (hb : B.data[i]? = some (FVal.num b))
    (hann : 0 ≤ a) (hbnn : 0 ≤ b) (hs : a + b ≠ 0) :
    ∃ q : ℚ, (ndvi A B).data[i]? = some (FVal.num q) ∧ -1 ≤ q ∧ q ≤ 1 := by
  have hpos : 0 < a + b := lt_of_le_of_ne (by linarith) (Ne.symm hs)
  refine ⟨(a - b) / (a + b), ?_, ?_, ?_⟩
  · rw [ndvi_at A B i a b ha hb]
    simp [FVal.div, hs]
  · rw [le_div_iff₀ hpos]
    linarith
  · rw [div_le_one hpos]
    linarith

/-- Witness for C6 at a concrete input: pixel values 1 and 3. -/
theorem ndvi_bounded_witness :
    (⟨["y"], [("y", [0])], [1], [FVal.num 1]⟩ : DataArray).data[0]? =
      some (FVal.num 1) ∧
    (⟨["y"], [("y", [0])], [1], [FVal.num 3]⟩ : DataArray).data[0]? =
      some (FVal.num 3) ∧
    (0 : ℚ) ≤ 1 ∧ (0 : ℚ) ≤ 3 ∧ (1 : ℚ) + 3 ≠ 0 ∧
    ∃ q : ℚ, (ndvi ⟨["y"], [("y", [0])], [1], [FVal.num 1]⟩
        ⟨["y"], [("y", [0])], [1], [FVal.num 3]⟩).data[0]? =
      some (FVal.num q) ∧ -1 ≤ q ∧ q ≤ 1 :=
  ⟨rfl, rfl, by norm_num, by norm_num, by norm_num,
    ndvi_bounded _ _ 0 1 3 rfl rfl (by norm_num) (by norm_num) (by norm_num)⟩

/-- C8: at a position where both inputs are zero, `ndvi` is still
defined and the element is the not-a-number sentinel produced by the
floating-point division 0 / 0; no guard intervenes. -/
theorem ndvi_zero_zero_nan (A B : DataArray) (i : Nat)
    (ha : A.data[i]? = some (FVal.num 0))
    (hb : B.data[i]? = some (FVal.num 0)) :
    (ndvi A B).data[i]? = some FVal.nan := by
  rw [ndvi_at A B i 0 0 ha hb]
  simp [FVal.div]

/-- Witness for C8 at a concrete input: both pixels zero. -/
theorem ndvi_zero_zero_nan_witness :
    (⟨["y"], [("y", [0])], [1], [FVal.num 0]⟩ : DataArray).data[0]? =
      some (FVal.num 0) ∧
    (ndvi ⟨["y"], [("y", [0])], [1], [FVal.num 0]⟩
        ⟨["y"], [("y", [0])], [1], [FVal.num 0]⟩).data[0]? =
      some FVal.nan :=
  ⟨rfl, ndvi_zero_zero_nan _ _ 0 rfl rfl⟩

/-- C3: when the nested lookups for the band all succeed, the loader
returns exactly the pair (multiplier, offset), in that order. -/
theorem load_scale_factors_ok (md l1 rr mv av : Json) (bn : Nat)
    (h1 : md.subscript "L1_METADATA_FILE" = Except.ok l1)
    (h2 : l1.subscript "RADIOMETRIC_RESCALING" = Except.ok rr)
    (h3 : rr.subscript ("REFLECTANCE_MULT_BAND_" ++ toString bn) = Except.ok mv)
    (h4 : rr.subscript ("REFLECTANCE_ADD_BAND_" ++ toString bn) = Except.ok av) :
    load_scale_factors md bn = Except.ok (mv, av) := by
  simp [load_scale_factors, h1, h2, h3, h4]

/-- Witness for C3 on a concrete document carrying multiplier 2 and
offset -62 for band 4. -/
theorem load_scale_factors_ok_witness :
    sampleMeta.subscript "L1_METADATA_FILE" = Except.ok sampleL1 ∧
    sampleL1.subscript "RADIOMETRIC_RESCALING" = Except.ok sampleRR ∧
    sampleRR.subscript ("REFLECTANCE_MULT_BAND_" ++ toString 4) =
      Except.ok (Json.num 2) ∧
    sampleRR.subscript ("REFLECTANCE_ADD_BAND_" ++ toString 4) =
      Except.ok (Json.num (-62)) ∧
    load_scale_factors sampleMeta 4 = Except.ok (Json.num 2, Json.num (-62)) :=
  ⟨rfl, rfl, rfl, rfl,
    load_scale_factors_ok sampleMeta sampleL1 sampleRR _ _ 4 rfl rfl rfl rfl⟩

/-- Counterexample for C4: on the document `{"L1_METADATA_FILE": 5}`
the enclosing metadata structure is absent, yet the loader fails with a
`TypeError` (subscripting the number 5), which is not a lookup error. -/
theorem load_scale_factors_type_error_cex :
    load_scale_factors (Json.obj [("L1_METADATA_FILE", Json.num 5)]) 4 =
      Except.error PyError.typeError ∧
    PyError.isLookupError PyError.typeError = false :=
  ⟨rfl, rfl⟩

theorem lsf_cases (md : Json) (bn : Nat) (h : objChain md = true) :
    (∃ k, load_scale_factors md bn = Except.error (PyError.keyError k) ∧
       scale_keys_present md bn = false) ∨
    (∃ v, load_scale_factors md bn = Except.ok v ∧
       scale_keys_present md bn = true) := by
  cases md with
  | null => simp [objChain, Json.isObj] at h
  | bool b => simp [objChain, Json.isObj] at h
  | num q => simp [objChain, Json.isObj] at h
  | str s => simp [objChain, Json.isObj] at h
  | arr xs => simp [objChain, Json.isObj] at h
  | obj kvs =>
    cases hf1 : findJson kvs "L1_METADATA_FILE" with
    | none =>
      exact Or.inl ⟨"L1_METADATA_FILE",
        by simp [load_scale_factors, Json.subscript, hf1],
        by simp [scale_keys_present, Json.subscript, hf1]⟩
    | some l1 =>
      cases l1 with
      | null => simp [objChain, Json.subscript, Json.isObj, hf1] at h
      | bool b => simp [objChain, Json.subscript, Json.isObj, hf1] at h
      | num q => simp [objChain, Json.subscript, Json.isObj, hf1] at h
      | str s => simp [objChain, Json.subscript, Json.isObj, hf1] at h
      | arr xs => simp [objChain, Json.subscript, Json.isObj, hf1] at h
      | obj kvs1 =>
        cases hf2 : findJson kvs1 "RADIOMETRIC_RESCALING" with
        | none =>
          exact Or.inl ⟨"RADIOMETRIC_RESCALING",
            by simp [load_scale_factors, Json.subscript, hf1, hf2],
            by simp [scale_keys_present, Json.subscript, hf1, hf2]⟩
        | some rr =>
          cases rr with
          | null => simp [objChain, Json.subscript, Json.isObj, hf1, hf2] at h
          | bool b => simp [objChain, Json.subscript, Json.isObj, hf1, hf2] at h
          | num q => simp [objChain, Json.subscript, Json.isObj, hf1, hf2] at h
          | str s => simp [objChain, Json.subscript, Json.isObj, hf1, hf2] at h
          | arr xs => simp [objChain, Json.subscript, Json.isObj, hf1, hf2] at h
          | obj kvs2 =>
            cases hf3 : findJson kvs2 ("REFLECTANCE_MULT_BAND_" ++ toString bn) with
            | none =>
              exact Or.inl ⟨"REFLECTANCE_MULT_BAND_" ++ toString bn,
                by simp [load_scale_factors, Json.subscript, hf1, hf2, hf3],
                by simp [scale_keys_present, Json.subscript, hf1, hf2, hf3]⟩
            | some mv =>
              cases hf4 : findJson kvs2 ("REFLECTANCE_ADD_BAND_" ++ toString bn) with
              | none =>
                exact Or.inl ⟨"REFLECTANCE_ADD_BAND_" ++ toString bn,
                  by simp [load_scale_factors, Json.subscript, hf1, hf2, hf3, hf4],
                  by simp [scale_keys_present, Json.subscript, hf1, hf2, hf3, hf4]⟩
              | some av =>
                exact Or.inr ⟨(mv, av),
                  by simp [load_scale_factors, Json.subscript, hf1, hf2, hf3, hf4],
                  by simp [scale_keys_present, Json.subscript, hf1, hf2, hf3, hf4]⟩

/-- C4 (amended): on a document whose values present along the lookup
chain are JSON objects, the loader fails with a key-lookup error
exactly when one of the four rescaling lookups misses, and every
failure it can raise there is a lookup error; a non-object met in the
chain instead raises a type error (see the counterexample). -/
theorem load_scale_factors_failure_char (md : Json) (bn : Nat)
    (h : objChain md = true) :
    ((∃ k, load_scale_factors md bn = Except.error (PyError.keyError k)) ↔
      scale_keys_present md bn = false) ∧
    ∀ e, load_scale_factors md bn = Except.error e →
      PyError.isLookupError e = true := by
  rcases lsf_cases md bn h with ⟨k, hk, hp⟩ | ⟨v, hv, hp⟩
  · refine ⟨⟨fun _ => hp, fun _ => ⟨k, hk⟩⟩, ?_⟩
    intro e he
    rw [hk] at he
    injection he with h2
    rw [← h2]
    rfl
  · refine ⟨⟨?_, ?_⟩, ?_⟩
    · rintro ⟨k, hk⟩
      rw [hv] at hk
      cases hk
    · intro hp2
      rw [hp] at hp2
      cases hp2
    · intro e he
      rw [hv] at he
      cases he

/-- Witness for C4 (amended) on a concrete document missing the band-4
rescaling keys. -/
theorem load_scale_factors_failure_char_witness :
    objChain sampleMetaMissing = true ∧
    ((∃ k, load_scale_factors sampleMetaMissing 4 =
        Except.error (PyError.keyError k)) ↔
      scale_keys_present sampleMetaMissing 4 = false) :=
  ⟨rfl, (load_scale_factors_failure_char sampleMetaMissing 4 rfl).1⟩

/-- C1: when the metadata yields multiplier `m` and offset `a`, the
reflectance transform returns the input array with every element `v`
replaced by `m * v + a` and nothing else changed. -/
theorem calculate_reflectance_linear (m a : ℚ) (ds : DataArray) (bn : Nat)
    (md : Json)
    (h : load_scale_factors md bn = Except.ok (Json.num m, Json.num a)) :
    calculate_reflectance ds bn md =
      Except.ok { ds with data := (ds.data.map
        (fun v => FVal.add (FVal.mul (FVal.num m) v) (FVal.num a))) } := by
  simp [calculate_reflectance, h, Json.toNum, scalar_add, scalar_mul,
    List.map_map, Function.comp]

/-- Witness for C1: with multiplier 2 and offset -62, the raw pixel
value 218 is transformed to 2 * 218 - 62 = 374. -/
theorem calculate_reflectance_linear_witness :
    load_scale_factors sampleMeta 4 = Except.ok (Json.num 2, Json.num (-62)) ∧
    calculate_reflectance samplePixel 4 sampleMeta =
      Except.ok { samplePixel with data := [FVal.num 374] } := by
  refine ⟨rfl, ?_⟩
  rw [calculate_reflectance_linear 2 (-62) samplePixel 4 sampleMeta rfl]
  norm_num [samplePixel, FVal.mul, FVal.add]

/-- C7: whatever array the reflectance transform returns has the same
dimension names, coordinate labels, and shape as its input. -/
theorem calculate_reflectance_frame (ds : DataArray) (bn : Nat) (md : Json)
    (toa : DataArray)
    (h : calculate_reflectance ds bn md = Except.ok toa) :
    toa.dims = ds.dims ∧ toa.coords = ds.coords ∧ toa.shape = ds.shape := by
  unfold calculate_reflectance at h
  split at h
  · cases h
  · split at h
    · injection h with h2
      rw [← h2]
      exact ⟨rfl, rfl, rfl⟩
    · cases h

/-- Witness for C7 at the concrete sample pixel and metadata. -/
theorem calculate_reflectance_frame_witness :
    calculate_reflectance samplePixel 4 sampleMeta =
      Except.ok { samplePixel with data := [FVal.num 374] } ∧
    ({ samplePixel with data := [FVal.num 374] } : DataArray).dims =
      samplePixel.dims ∧
    ({ samplePixel with data := [FVal.num 374] } : DataArray).coords =
      samplePixel.coords ∧
    ({ samplePixel with data := [FVal.num 374] } : DataArray).shape =
      samplePixel.shape := by
  have hmk : ("REFLECTANCE_MULT_BAND_" ++ toString 4) =
      "REFLECTANCE_MULT_BAND_4" := rfl
  have hak : ("REFLECTANCE_ADD_BAND_" ++ toString 4) =
      "REFLECTANCE_ADD_BAND_4" := rfl
  have hne : ("REFLECTANCE_MULT_BAND_4" = "REFLECTANCE_ADD_BAND_4") = False := by
    simp
  have hc : calculate_reflectance samplePixel 4 sampleMeta =
      Except.ok { samplePixel with data := [FVal.num 374] } := by
    norm_num [calculate_reflectance, load_scale_factors, hmk, hak, hne,
      sampleMeta, sampleL1, sampleRR, samplePixel, Json.subscript, findJson,
      Json.toNum, scalar_add, scalar_mul, FVal.mul, FVal.add]
  exact ⟨hc, calculate_reflectance_frame samplePixel 4 sampleMeta _ hc⟩

theorem exists_write_self (fs : FileSystem) (p : String) (c : List Nat) :
    os_path_exists (fs.write p c) p = true := by
  simp [os_path_exists, FileSystem.write, findFile]

theorem download_noop (net : String → Response) (u o : String)
    (fs : FileSystem) (h : os_path_exists fs o = true) :
    download_file net u o fs = (fs, []) := by
  simp [download_file, h]

theorem exists_after_download (net : String → Response) (u o : String)
    (fs : FileSystem) :
    os_path_exists (download_file net u o fs).1 o = true := by
  cases hex : os_path_exists fs o with
  | true => simp [download_file, hex]
  | false => simp [download_file, hex, exists_write_self]

theorem exists_mono_download (net : String → Response) (u o p : String)
    (fs : FileSystem) (h : os_path_exists fs p = true) :
    os_path_exists (download_file net u o fs).1 p = true := by
  cases hex : os_path_exists fs o with
  | true => simpa [download_file, hex] using h
  | false =>
    by_cases hop : o = p
    · subst hop
      simp [download_file, hex, exists_write_self]
    · simp [download_file, hex] at h ⊢
      simpa [os_path_exists, FileSystem.write, findFile, hop] using h

theorem exists_mono_run (calls : List ((String → Response) × String × String))
    (p : String) :
    ∀ fs : FileSystem, os_path_exists fs p = true →
      os_path_exists (run_downloads calls fs) p = true := by
  induction calls with
  | nil =>
    intro fs h
    simpa [run_downloads] using h
  | cons c cs ih =>
    intro fs h
    have hstep := exists_mono_download c.1 c.2.1 c.2.2 p fs h
    simpa [run_downloads] using ih _ hstep

/-- C5: a second call with the same destination performs no network
request and leaves the filesystem exactly as the first call left it;
the first call itself issues at most the one request. -/
theorem download_file_idempotent (net : String → Response) (u p : String)
    (fs : FileSystem) :
    (download_file net u p (download_file net u p fs).1).2 = [] ∧
    (download_file net u p (download_file net u p fs).1).1 =
      (download_file net u p fs).1 ∧
    ((download_file net u p fs).2 = [] ∨ (download_file net u p fs).2 = [u]) := by
  have h := exists_after_download net u p fs
  rw [download_noop net u p _ h]
  refine ⟨rfl, rfl, ?_⟩
  cases hex : os_path_exists fs p with
  | true => exact Or.inl (by simp [download_file, hex])
  | false => exact Or.inr (by simp [download_file, hex])

/-- C9: when the destination is absent, the helper issues exactly one
request and writes the response body to the destination with no
status-code check; from then on the file exists, so any later call
with that destination — after any interleaved sequence of downloads —
issues no request. -/
theorem download_file_writes_body (net : String → Response)
    (in_filename out_filename : String) (fs : FileSystem)
    (h : os_path_exists fs out_filename = false) :
    (download_file net in_filename out_filename fs).2 = [in_filename] ∧
    findFile (download_file net in_filename out_filename fs).1.files
      out_filename = some (net in_filename).content ∧
    ∀ (calls : List ((String → Response) × String × String))
      (net2 : String → Response) (in2 : String),
      (download_file net2 in2 out_filename
        (run_downloads calls (download_file net in_filename out_filename fs).1)).2 =
        [] := by
  refine ⟨by simp [download_file, h], ?_, ?_⟩
  · simp [download_file, h, FileSystem.write, findFile]
  · intro calls net2 in2
    have h1 := exists_after_download net in_filename out_filename fs
    have h2 := exists_mono_run calls out_filename _ h1
    rw [download_noop net2 in2 out_filename _ h2]

/-- Witness for C9 at concrete inputs: an empty filesystem, a network
returning status 404 with body [7, 7], and one interleaved download of
another file. -/
theorem download_file_writes_body_witness :
    os_path_exists ⟨[]⟩ "meta.json" = false ∧
    (download_file (fun _ => ⟨404, [7, 7]⟩) "http://u" "meta.json" ⟨[]⟩).2 =
      ["http://u"] ∧
    findFile (download_file (fun _ => ⟨404, [7, 7]⟩) "http://u" "meta.json"
      ⟨[]⟩).1.files "meta.json" = some [7, 7] ∧
    (download_file (fun _ => ⟨200, [1]⟩) "http://u2" "meta.json"
      (run_downloads [(fun _ => ⟨200, [2]⟩, "http://u3", "red.tif")]
        (download_file (fun _ => ⟨404, [7, 7]⟩) "http://u" "meta.json"
          ⟨[]⟩).1)).2 = [] := by
  have hmain := download_file_writes_body (fun _ => ⟨404, [7, 7]⟩) "http://u"
    "meta.json" ⟨[]⟩ rfl
  exact ⟨rfl, hmain.1, hmain.2.1,
    hmain.2.2 [(fun _ => ⟨200, [2]⟩, "http://u3", "red.tif")]
      (fun _ => ⟨200, [1]⟩) "http://u2"⟩

/-- C10: when the destination already exists, the helper issues no
request and returns the filesystem unchanged, whatever the source URL
is. -/
theorem download_file_skips_existing (net : String → Response)
    (in_filename out_filename : String) (fs : FileSystem)
    (h : os_path_exists fs out_filename = true) :
    download_file net in_filename out_filename fs = (fs, []) :=
  download_noop net in_filename out_filename fs h

/-- Witness for C10 at concrete inputs: the destination holds [1] and a
call with a different source URL changes nothing and requests
nothing. -/
theorem download_file_skips_existing_witness :
    os_path_exists ⟨[("red.tif", [1])]⟩ "red.tif" = true ∧
    download_file (fun _ => ⟨200, [9]⟩) "http://other-url" "red.tif"
      ⟨[("red.tif", [1])]⟩ = (⟨[("red.tif", [1])]⟩, []) :=
  ⟨rfl, download_file_skips_existing (fun _ => ⟨200, [9]⟩) "http://other-url"
    "red.tif" ⟨[("red.tif", [1])]⟩ rfl⟩

end Landsat
